import Mathlib

/-!
# Verification of the cosmium API server (`api/router.go`)

A shallow embedding of `CreateRouter` and `Start` from `api/router.go`,
together with a model of the middleware chain, the TLS listener-mode
selection, the startup/shutdown coordination, and (modelled from the
specification, since the store sources are not in the provided fragment)
the snapshot codec of the data store.
-/

set_option maxHeartbeats 1000000

/-- The server configuration fields read by `CreateRouter` and `Start`
(`s.config` in `api/router.go`). -/
structure ServerConfig where
  LogLevel : String
  DisableTls : Bool
  TLS_CertificatePath : String
  TLS_CertificateKey : String
  Port : Nat
  AccountKey : String
deriving DecidableEq, Repr

/- ## Gin engine settings and middleware chain (`CreateRouter`) -/

/-- Gin engine run mode: `gin.SetMode(gin.ReleaseMode)` is called when the
log level is not `"debug"`; otherwise the engine stays in its default
(debug) mode. -/
inductive GinMode where
  | debug
  | release
deriving DecidableEq, Repr

/-- The mode `CreateRouter` leaves the gin engine in:
`if s.config.LogLevel != "debug" { gin.SetMode(gin.ReleaseMode) }`. -/
def ginMode (cfg : ServerConfig) : GinMode :=
  if cfg.LogLevel ≠ "debug" then GinMode.release else GinMode.debug

/-- Engine options passed to `gin.Default`: the option function sets
`e.RedirectTrailingSlash = false`. -/
structure EngineSettings where
  redirectTrailingSlash : Bool
deriving DecidableEq, Repr

/-- The engine settings `CreateRouter` constructs the router with. -/
def routerEngineSettings : EngineSettings :=
  { redirectTrailingSlash := false }

/-- The middlewares `CreateRouter` installs with `router.Use`, in order. -/
inductive MwName where
  | requestLogger
  | stripTrailingSlashes
  | authentication
deriving DecidableEq, Repr

/-- The `router.Use` sequence of `CreateRouter`: `RequestLogger` only when
the log level is `"debug"`, then `StripTrailingSlashes`, then
`Authentication`, all before any route registration. -/
def routerMiddlewares (cfg : ServerConfig) : List MwName :=
  (if cfg.LogLevel = "debug" then [MwName.requestLogger] else []) ++
    [MwName.stripTrailingSlashes, MwName.authentication]

/-- An incoming HTTP request, reduced to the parts the middlewares read:
the URL path and the `Authorization` header value. -/
structure Request where
  path : String
  authHeader : String
deriving DecidableEq, Repr

/-- Modelled from the spec: the well-known "emulator" master-key token that
the authentication middleware always accepts. -/
def emulatorKey : String := "well-known-emulator-master-key"

/-- Modelled from the spec: the authentication middleware accepts a
configured literal token (only when one is configured) and the well-known
emulator token; any mismatch is rejected with 401. -/
def authPasses (cfg : ServerConfig) (tok : String) : Bool :=
  (cfg.AccountKey != "" && tok == cfg.AccountKey) || tok == emulatorKey

/-- Drop trailing `'/'` characters from a reversed character list. -/
def dropLeadingSlashes : List Char → List Char
  | [] => []
  | c :: rest => if c = '/' then dropLeadingSlashes rest else c :: rest

/-- Modelled from the spec: the `StripTrailingSlashes` middleware rewrites
a request path carrying a trailing slash to its canonical slash-free form
(the bare root path `/` stays `/`). -/
def stripTrailingSlash (p : String) : String :=
  let r := dropLeadingSlashes p.data.reverse
  if r.isEmpty then "/" else String.mk r.reverse

/-- One middleware step: `none` aborts the chain (the handler never runs),
`some r` continues with the possibly rewritten request.  `RequestLogger`
only logs; `StripTrailingSlashes` rewrites the path;  `Authentication`
aborts unless the request's token is accepted (modelled from the spec:
authentication failures short-circuit). -/
def runMiddleware (cfg : ServerConfig) : MwName → Request → Option Request
  | MwName.requestLogger, r => some r
  | MwName.stripTrailingSlashes, r => some { r with path := stripTrailingSlash r.path }
  | MwName.authentication, r =>
      if authPasses cfg r.authHeader then some r else none

/-- Run a middleware chain left to right; the result is the request the
route handler would receive, or `none` if some middleware aborted. -/
def runChain (cfg : ServerConfig) : List MwName → Request → Option Request
  | [], r => some r
  | m :: ms, r =>
      match runMiddleware cfg m r with
      | none => none
      | some r2 => runChain cfg ms r2

/- ## The route table (`CreateRouter`) -/

/-- HTTP methods used by the route table. -/
inductive Method where
  | GET
  | POST
  | PUT
  | PATCH
  | DELETE
deriving DecidableEq, Repr

/-- A path-template segment: a literal or a named path variable (`:x`). -/
inductive Seg where
  | lit (s : String)
  | param (s : String)
deriving DecidableEq, Repr

/-- A registered route: method, path template, and the handler name it was
registered with. -/
structure Route where
  method : Method
  pattern : List Seg
  handler : String
deriving DecidableEq, Repr

/-- The non-explorer routes registered by `CreateRouter`, in source order
(`routeHandlers.RegisterExplorerHandlers` is excluded as external). -/
def createRouterRoutes : List Route :=
  [ ⟨Method.GET, [Seg.lit "dbs", Seg.param "databaseId", Seg.lit "colls", Seg.param "collId", Seg.lit "pkranges"], "GetPartitionKeyRanges"⟩
  , ⟨Method.POST, [Seg.lit "dbs", Seg.param "databaseId", Seg.lit "colls", Seg.param "collId", Seg.lit "docs"], "DocumentsPost"⟩
  , ⟨Method.GET, [Seg.lit "dbs", Seg.param "databaseId", Seg.lit "colls", Seg.param "collId", Seg.lit "docs"], "GetAllDocuments"⟩
  , ⟨Method.GET, [Seg.lit "dbs", Seg.param "databaseId", Seg.lit "colls", Seg.param "collId", Seg.lit "docs", Seg.param "docId"], "GetDocument"⟩
  , ⟨Method.PUT, [Seg.lit "dbs", Seg.param "databaseId", Seg.lit "colls", Seg.param "collId", Seg.lit "docs", Seg.param "docId"], "ReplaceDocument"⟩
  , ⟨Method.PATCH, [Seg.lit "dbs", Seg.param "databaseId", Seg.lit "colls", Seg.param "collId", Seg.lit "docs", Seg.param "docId"], "PatchDocument"⟩
  , ⟨Method.DELETE, [Seg.lit "dbs", Seg.param "databaseId", Seg.lit "colls", Seg.param "collId", Seg.lit "docs", Seg.param "docId"], "DeleteDocument"⟩
  , ⟨Method.POST, [Seg.lit "dbs", Seg.param "databaseId", Seg.lit "colls"], "CreateCollection"⟩
  , ⟨Method.GET, [Seg.lit "dbs", Seg.param "databaseId", Seg.lit "colls"], "GetAllCollections"⟩
  , ⟨Method.GET, [Seg.lit "dbs", Seg.param "databaseId", Seg.lit "colls", Seg.param "collId"], "GetCollection"⟩
  , ⟨Method.DELETE, [Seg.lit "dbs", Seg.param "databaseId", Seg.lit "colls", Seg.param "collId"], "DeleteCollection"⟩
  , ⟨Method.POST, [Seg.lit "dbs"], "CreateDatabase"⟩
  , ⟨Method.GET, [Seg.lit "dbs"], "GetAllDatabases"⟩
  , ⟨Method.GET, [Seg.lit "dbs", Seg.param "databaseId"], "GetDatabase"⟩
  , ⟨Method.DELETE, [Seg.lit "dbs", Seg.param "databaseId"], "DeleteDatabase"⟩
  , ⟨Method.POST, [Seg.lit "dbs", Seg.param "databaseId", Seg.lit "colls", Seg.param "collId", Seg.lit "triggers"], "CreateTrigger"⟩
  , ⟨Method.GET, [Seg.lit "dbs", Seg.param "databaseId", Seg.lit "colls", Seg.param "collId", Seg.lit "triggers"], "GetAllTriggers"⟩
  , ⟨Method.GET, [Seg.lit "dbs", Seg.param "databaseId", Seg.lit "colls", Seg.param "collId", Seg.lit "triggers", Seg.param "triggerId"], "GetTrigger"⟩
  , ⟨Method.PUT, [Seg.lit "dbs", Seg.param "databaseId", Seg.lit "colls", Seg.param "collId", Seg.lit "triggers", Seg.param "triggerId"], "ReplaceTrigger"⟩
  , ⟨Method.DELETE, [Seg.lit "dbs", Seg.param "databaseId", Seg.lit "colls", Seg.param "collId", Seg.lit "triggers", Seg.param "triggerId"], "DeleteTrigger"⟩
  , ⟨Method.POST, [Seg.lit "dbs", Seg.param "databaseId", Seg.lit "colls", Seg.param "collId", Seg.lit "sprocs"], "CreateStoredProcedure"⟩
  , ⟨Method.GET, [Seg.lit "dbs", Seg.param "databaseId", Seg.lit "colls", Seg.param "collId", Seg.lit "sprocs"], "GetAllStoredProcedures"⟩
  , ⟨Method.GET, [Seg.lit "dbs", Seg.param "databaseId", Seg.lit "colls", Seg.param "collId", Seg.lit "sprocs", Seg.param "sprocId"], "GetStoredProcedure"⟩
  , ⟨Method.PUT, [Seg.lit "dbs", Seg.param "databaseId", Seg.lit "colls", Seg.param "collId", Seg.lit "sprocs", Seg.param "sprocId"], "ReplaceStoredProcedure"⟩
  , ⟨Method.DELETE, [Seg.lit "dbs", Seg.param "databaseId", Seg.lit "colls", Seg.param "collId", Seg.lit "sprocs", Seg.param "sprocId"], "DeleteStoredProcedure"⟩
  , ⟨Method.POST, [Seg.lit "dbs", Seg.param "databaseId", Seg.lit "colls", Seg.param "collId", Seg.lit "udfs"], "CreateUserDefinedFunction"⟩
  , ⟨Method.GET, [Seg.lit "dbs", Seg.param "databaseId", Seg.lit "colls", Seg.param "collId", Seg.lit "udfs"], "GetAllUserDefinedFunctions"⟩
  , ⟨Method.GET, [Seg.lit "dbs", Seg.param "databaseId", Seg.lit "colls", Seg.param "collId", Seg.lit "udfs", Seg.param "udfId"], "GetUserDefinedFunction"⟩
  , ⟨Method.PUT, [Seg.lit "dbs", Seg.param "databaseId", Seg.lit "colls", Seg.param "collId", Seg.lit "udfs", Seg.param "udfId"], "ReplaceUserDefinedFunction"⟩
  , ⟨Method.DELETE, [Seg.lit "dbs", Seg.param "databaseId", Seg.lit "colls", Seg.param "collId", Seg.lit "udfs", Seg.param "udfId"], "DeleteUserDefinedFunction"⟩
  , ⟨Method.GET, [Seg.lit "offers"], "GetOffers"⟩
  , ⟨Method.GET, [], "GetServerInfo"⟩
  , ⟨Method.GET, [Seg.lit "cosmium", Seg.lit "export"], "CosmiumExport"⟩ ]

/-- The route list given in the spec's Routes section, with the spec's
path-variable names (`:db`, `:coll`, `:doc`, ...). -/
def specRoutes : List (Method × List Seg) :=
  [ (Method.GET, [])
  , (Method.GET, [Seg.lit "offers"])
  , (Method.POST, [Seg.lit "dbs"])
  , (Method.GET, [Seg.lit "dbs"])
  , (Method.GET, [Seg.lit "dbs", Seg.param "db"])
  , (Method.DELETE, [Seg.lit "dbs", Seg.param "db"])
  , (Method.POST, [Seg.lit "dbs", Seg.param "db", Seg.lit "colls"])
  , (Method.GET, [Seg.lit "dbs", Seg.param "db", Seg.lit "colls"])
  , (Method.GET, [Seg.lit "dbs", Seg.param "db", Seg.lit "colls", Seg.param "coll"])
  , (Method.DELETE, [Seg.lit "dbs", Seg.param "db", Seg.lit "colls", Seg.param "coll"])
  , (Method.GET, [Seg.lit "dbs", Seg.param "db", Seg.lit "colls", Seg.param "coll", Seg.lit "pkranges"])
  , (Method.POST, [Seg.lit "dbs", Seg.param "db", Seg.lit "colls", Seg.param "coll", Seg.lit "docs"])
  , (Method.GET, [Seg.lit "dbs", Seg.param "db", Seg.lit "colls", Seg.param "coll", Seg.lit "docs"])
  , (Method.GET, [Seg.lit "dbs", Seg.param "db", Seg.lit "colls", Seg.param "coll", Seg.lit "docs", Seg.param "doc"])
  , (Method.PUT, [Seg.lit "dbs", Seg.param "db", Seg.lit "colls", Seg.param "coll", Seg.lit "docs", Seg.param "doc"])
  , (Method.PATCH, [Seg.lit "dbs", Seg.param "db", Seg.lit "colls", Seg.param "coll", Seg.lit "docs", Seg.param "doc"])
  , (Method.DELETE, [Seg.lit "dbs", Seg.param "db", Seg.lit "colls", Seg.param "coll", Seg.lit "docs", Seg.param "doc"])
  , (Method.POST, [Seg.lit "dbs", Seg.param "db", Seg.lit "colls", Seg.param "coll", Seg.lit "triggers"])
  , (Method.GET, [Seg.lit "dbs", Seg.param "db", Seg.lit "colls", Seg.param "coll", Seg.lit "triggers"])
  , (Method.GET, [Seg.lit "dbs", Seg.param "db", Seg.lit "colls", Seg.param "coll", Seg.lit "triggers", Seg.param "trigger"])
  , (Method.PUT, [Seg.lit "dbs", Seg.param "db", Seg.lit "colls", Seg.param "coll", Seg.lit "triggers", Seg.param "trigger"])
  , (Method.DELETE, [Seg.lit "dbs", Seg.param "db", Seg.lit "colls", Seg.param "coll", Seg.lit "triggers", Seg.param "trigger"])
  , (Method.POST, [Seg.lit "dbs", Seg.param "db", Seg.lit "colls", Seg.param "coll", Seg.lit "sprocs"])
  , (Method.GET, [Seg.lit "dbs", Seg.param "db", Seg.lit "colls", Seg.param "coll", Seg.lit "sprocs"])
  , (Method.GET, [Seg.lit "dbs", Seg.param "db", Seg.lit "colls", Seg.param "coll", Seg.lit "sprocs", Seg.param "sproc"])
  , (Method.PUT, [Seg.lit "dbs", Seg.param "db", Seg.lit "colls", Seg.param "coll", Seg.lit "sprocs", Seg.param "sproc"])
  , (Method.DELETE, [Seg.lit "dbs", Seg.param "db", Seg.lit "colls", Seg.param "coll", Seg.lit "sprocs", Seg.param "sproc"])
  , (Method.POST, [Seg.lit "dbs", Seg.param "db", Seg.lit "colls", Seg.param "coll", Seg.lit "udfs"])
  , (Method.GET, [Seg.lit "dbs", Seg.param "db", Seg.lit "colls", Seg.param "coll", Seg.lit "udfs"])
  , (Method.GET, [Seg.lit "dbs", Seg.param "db", Seg.lit "colls", Seg.param "coll", Seg.lit "udfs", Seg.param "udf"])
  , (Method.PUT, [Seg.lit "dbs", Seg.param "db", Seg.lit "colls", Seg.param "coll", Seg.lit "udfs", Seg.param "udf"])
  , (Method.DELETE, [Seg.lit "dbs", Seg.param "db", Seg.lit "colls", Seg.param "coll", Seg.lit "udfs", Seg.param "udf"])
  , (Method.GET, [Seg.lit "cosmium", Seg.lit "export"]) ]

/-- A path-template segment with the variable name erased: two templates
that differ only in the names of their path variables match the same
requests. -/
inductive NSeg where
  | lit (s : String)
  | param
deriving DecidableEq, Repr

/-- Erase the path-variable name of a segment. -/
def normSeg : Seg → NSeg
  | Seg.lit s => NSeg.lit s
  | Seg.param _ => NSeg.param

/-- A route key up to path-variable renaming: method plus normalized
template. -/
def normRoute (r : Route) : Method × List NSeg :=
  (r.method, r.pattern.map normSeg)

/-- A spec route key up to path-variable renaming. -/
def normSpecRoute (r : Method × List Seg) : Method × List NSeg :=
  (r.1, r.2.map normSeg)

/-- A route handler executes only if the route is registered and the whole
middleware chain lets the request through. -/
def handlerRuns (cfg : ServerConfig) (r : Route) (req : Request) : Bool :=
  decide (r ∈ createRouterRoutes) && (runChain cfg (routerMiddlewares cfg) req).isSome

/- ## The listener (`Start`) -/

/-- How `Start` serves: plain HTTP (`ListenAndServe`), HTTPS with
operator-provided certificate files (`ListenAndServeTLS(cert, key)`), or
HTTPS with the self-signed certificate from the TLS materials provider
(`GetDefaultTlsConfig` then `ListenAndServeTLS("", "")`). -/
inductive ListenMode where
  | plainHttp
  | httpsProvided (certPath keyPath : String)
  | httpsSelfSigned
deriving DecidableEq, Repr

/-- The branch `Start` takes, from `api/router.go`:
`if s.config.DisableTls` serve HTTP; `else if` both
`TLS_CertificatePath` and `TLS_CertificateKey` are non-empty serve HTTPS
with those files; `else` serve HTTPS with the built-in certificate. -/
def startListenMode (cfg : ServerConfig) : ListenMode :=
  if cfg.DisableTls then
    ListenMode.plainHttp
  else if cfg.TLS_CertificatePath ≠ "" ∧ cfg.TLS_CertificateKey ≠ "" then
    ListenMode.httpsProvided cfg.TLS_CertificatePath cfg.TLS_CertificateKey
  else
    ListenMode.httpsSelfSigned

/-- The listener goroutine's exit, if it ever exits: the time (in
milliseconds since `Start` began) at which it sends on `errChan`, and the
value sent — `some e` for a startup failure, `none` when the serve call
returned `nil` or `http.ErrServerClosed`. -/
structure ListenerExit where
  time : Nat
  failure : Option String
deriving DecidableEq, Repr

/-- The `time.After(50 * time.Millisecond)` startup window of `Start`'s
final `select`, in milliseconds. -/
def startupWindow : Nat := 50

/-- What `Start` returns: the `select` takes whichever of `errChan` and
the 50 ms timer fires first, so a listener exit inside the window yields
the value sent on `errChan` and anything else yields `nil` (`none`). -/
def startReturn (exit : Option ListenerExit) : Option String :=
  match exit with
  | some ex => if ex.time < startupWindow then ex.failure else none
  | none => none

/-- The flag `s.isActive` after the listener goroutine has run: set to `true` by
`Start` and to `false` by the goroutine when the serve call returns, so it
is `true` exactly while the listener has not exited. -/
def isActiveAfter (exit : Option ListenerExit) : Bool :=
  exit.isNone

/- ## The shutdown goroutine (`Start`) -/

/-- A Go `context.Context`, reduced to its deadline: `context.TODO()`
carries no deadline. -/
structure GoContext where
  deadline : Option Nat
deriving DecidableEq, Repr

/-- The context `Start`'s shutdown goroutine passes to `server.Shutdown`:
`context.TODO()`, which has no deadline. -/
def shutdownCallContext : GoContext :=
  { deadline := none }

/-- Outcome of `http.Server.Shutdown(ctx)` (Go standard library
semantics): it always stops accepting new connections, then waits for
in-flight connections to drain; only if the context's deadline expires
first does it give up and forcibly close the remaining connections. -/
structure ShutdownResult where
  stoppedAccepting : Bool
  drainedAll : Bool
  forcedClose : Bool
deriving DecidableEq, Repr

/-- The call `http.Server.Shutdown(ctx)` as a function of the context deadline and
of the time the in-flight handlers need to drain. -/
def httpServerShutdown (ctx : GoContext) (drainTime : Nat) : ShutdownResult :=
  match ctx.deadline with
  | some d => { stoppedAccepting := true, drainedAll := decide (drainTime ≤ d), forcedClose := decide (d < drainTime) }
  | none => { stoppedAccepting := true, drainedAll := true, forcedClose := false }

/-- The steps of the shutdown goroutine in `Start`, in order. -/
inductive ShutdownStep where
  | awaitStopSignal
  | callServerShutdown (ctx : GoContext)
  | notifyOnServerShutdown
deriving DecidableEq, Repr

/-- The shutdown goroutine of `Start`: block on `<-s.stopServer`, call
`server.Shutdown(context.TODO())`, then send on `s.onServerShutdown`. -/
def shutdownGoroutineSteps : List ShutdownStep :=
  [ ShutdownStep.awaitStopSignal
  , ShutdownStep.callServerShutdown shutdownCallContext
  , ShutdownStep.notifyOnServerShutdown ]


/- ## The data store and its snapshot codec (modelled from the spec) -/

/-- Modelled from the spec: the universal JSON value tree of the store
(numbers reduced to integers; their representation is irrelevant to the
snapshot round-trip). -/
inductive Json where
  | null
  | bool (b : Bool)
  | num (n : Int)
  | str (s : String)
  | arr (xs : List Json)
  | obj (fields : List (String × Json))

/-- First value bound to `key` in an object's field list. -/
def lookupField : List (String × Json) → String → Option Json
  | [], _ => none
  | (k, v) :: rest, key => if k = key then some v else lookupField rest key

/-- Modelled from the spec: a database's server-stamped form — unique `id`
plus the stamped `_rid`, `_ts`, `_self`, `_etag`. -/
structure DatabaseMeta where
  id : String
  rid : String
  ts : Int
  selfLink : String
  etag : String

/-- Modelled from the spec: a collection, scoped by its database, with its
partition-key definition (a non-empty list of paths, kept as strings). -/
structure CollectionMeta where
  databaseId : String
  id : String
  rid : String
  ts : Int
  selfLink : String
  etag : String
  partitionKeyPaths : List String

/-- Modelled from the spec: a stored document — the store maps
`(database_id, collection_id, partition_index, document_id)` to the
document body (a JSON object carrying the stamped fields). -/
structure DocumentEntity where
  databaseId : String
  collectionId : String
  partitionIndex : Nat
  docId : String
  body : Json

/-- Modelled from the spec: a script resource (trigger, sproc or UDF) —
stored verbatim, never executed. -/
structure ScriptMeta where
  databaseId : String
  collectionId : String
  id : String
  scriptBody : String
  rid : String
  ts : Int
  selfLink : String
  etag : String

/-- Modelled from the spec: the whole in-memory store — the catalog lists
of §4.5's snapshot schema. -/
structure StoreState where
  databases : List DatabaseMeta
  collections : List CollectionMeta
  documents : List DocumentEntity
  triggers : List ScriptMeta
  sprocs : List ScriptMeta
  udfs : List ScriptMeta

def databaseToJson (d : DatabaseMeta) : Json :=
  Json.obj [("id", Json.str d.id), ("_rid", Json.str d.rid), ("_ts", Json.num d.ts),
            ("_self", Json.str d.selfLink), ("_etag", Json.str d.etag)]

def asString : Option Json → Except String String
  | some (Json.str s) => Except.ok s
  | _ => Except.error "expected a string field"

def asInt : Option Json → Except String Int
  | some (Json.num n) => Except.ok n
  | _ => Except.error "expected a numeric field"

def asNat : Option Json → Except String Nat
  | some (Json.num (Int.ofNat n)) => Except.ok n
  | _ => Except.error "expected a non-negative numeric field"

def databaseOfJson : Json → Except String DatabaseMeta
  | Json.obj fs => do
      let id ← asString (lookupField fs "id")
      let rid ← asString (lookupField fs "_rid")
      let ts ← asInt (lookupField fs "_ts")
      let selfLink ← asString (lookupField fs "_self")
      let etag ← asString (lookupField fs "_etag")
      Except.ok { id := id, rid := rid, ts := ts, selfLink := selfLink, etag := etag }
  | _ => Except.error "database entry must be an object"

def strOfJson : Json → Except String String
  | Json.str s => Except.ok s
  | _ => Except.error "expected a string"

def decodeList (dec : Json → Except String α) : List Json → Except String (List α)
  | [] => Except.ok []
  | j :: rest =>
    match dec j with
    | Except.error e => Except.error e
    | Except.ok x =>
      match decodeList dec rest with
      | Except.error e => Except.error e
      | Except.ok xs => Except.ok (x :: xs)

def collectionToJson (c : CollectionMeta) : Json :=
  Json.obj [("databaseId", Json.str c.databaseId), ("id", Json.str c.id),
            ("_rid", Json.str c.rid), ("_ts", Json.num c.ts),
            ("_self", Json.str c.selfLink), ("_etag", Json.str c.etag),
            ("partitionKeyPaths", Json.arr (c.partitionKeyPaths.map Json.str))]

def collectionOfJson : Json → Except String CollectionMeta
  | Json.obj fs => do
      let databaseId ← asString (lookupField fs "databaseId")
      let id ← asString (lookupField fs "id")
      let rid ← asString (lookupField fs "_rid")
      let ts ← asInt (lookupField fs "_ts")
      let selfLink ← asString (lookupField fs "_self")
      let etag ← asString (lookupField fs "_etag")
      let paths ←
        match lookupField fs "partitionKeyPaths" with
        | some (Json.arr xs) => decodeList strOfJson xs
        | _ => Except.error "expected an array of partition-key paths"
      Except.ok { databaseId := databaseId, id := id, rid := rid, ts := ts,
                  selfLink := selfLink, etag := etag, partitionKeyPaths := paths }
  | _ => Except.error "collection entry must be an object"

def documentToJson (d : DocumentEntity) : Json :=
  Json.obj [("databaseId", Json.str d.databaseId), ("collectionId", Json.str d.collectionId),
            ("partitionIndex", Json.num (Int.ofNat d.partitionIndex)),
            ("docId", Json.str d.docId), ("document", d.body)]

def documentOfJson : Json → Except String DocumentEntity
  | Json.obj fs => do
      let databaseId ← asString (lookupField fs "databaseId")
      let collectionId ← asString (lookupField fs "collectionId")
      let partitionIndex ← asNat (lookupField fs "partitionIndex")
      let docId ← asString (lookupField fs "docId")
      match lookupField fs "document" with
      | some body =>
          Except.ok { databaseId := databaseId, collectionId := collectionId,
                      partitionIndex := partitionIndex, docId := docId, body := body }
      | none => Except.error "missing document body"
  | _ => Except.error "document entry must be an object"

def scriptToJson (m : ScriptMeta) : Json :=
  Json.obj [("databaseId", Json.str m.databaseId), ("collectionId", Json.str m.collectionId),
            ("id", Json.str m.id), ("body", Json.str m.scriptBody),
            ("_rid", Json.str m.rid), ("_ts", Json.num m.ts),
            ("_self", Json.str m.selfLink), ("_etag", Json.str m.etag)]

def scriptOfJson : Json → Except String ScriptMeta
  | Json.obj fs => do
      let databaseId ← asString (lookupField fs "databaseId")
      let collectionId ← asString (lookupField fs "collectionId")
      let id ← asString (lookupField fs "id")
      let scriptBody ← asString (lookupField fs "body")
      let rid ← asString (lookupField fs "_rid")
      let ts ← asInt (lookupField fs "_ts")
      let selfLink ← asString (lookupField fs "_self")
      let etag ← asString (lookupField fs "_etag")
      Except.ok { databaseId := databaseId, collectionId := collectionId, id := id,
                  scriptBody := scriptBody, rid := rid, ts := ts,
                  selfLink := selfLink, etag := etag }
  | _ => Except.error "script entry must be an object"

/-- Modelled from the spec (§4.5): export is a single JSON object with the
six entity lists, each entity in its full server-stamped form. -/
def snapshot (s : StoreState) : Json :=
  Json.obj [ ("Databases", Json.arr (s.databases.map databaseToJson))
           , ("Collections", Json.arr (s.collections.map collectionToJson))
           , ("Documents", Json.arr (s.documents.map documentToJson))
           , ("Triggers", Json.arr (s.triggers.map scriptToJson))
           , ("Sprocs", Json.arr (s.sprocs.map scriptToJson))
           , ("UDFs", Json.arr (s.udfs.map scriptToJson)) ]

/-- Decode the array bound to `key` with `dec`. -/
def listField (dec : Json → Except String α) (fs : List (String × Json)) (key : String) :
    Except String (List α) :=
  match lookupField fs key with
  | some (Json.arr xs) => decodeList dec xs
  | _ => Except.error ("missing array field " ++ key)

/-- Modelled from the spec (§4.5): import parses the snapshot object and
replaces the store with the parsed state; on any parse failure an error is
returned (and the caller retains the prior state). -/
def restore (j : Json) : Except String StoreState :=
  match j with
  | Json.obj fs => do
      let databases ← listField databaseOfJson fs "Databases"
      let collections ← listField collectionOfJson fs "Collections"
      let documents ← listField documentOfJson fs "Documents"
      let triggers ← listField scriptOfJson fs "Triggers"
      let sprocs ← listField scriptOfJson fs "Sprocs"
      let udfs ← listField scriptOfJson fs "UDFs"
      Except.ok { databases := databases, collections := collections,
                  documents := documents, triggers := triggers,
                  sprocs := sprocs, udfs := udfs }
  | _ => Except.error "snapshot must be a JSON object"

/- ## Store operations (modelled from the spec, §4.1) -/

/-- The store at process start, before any snapshot import. -/
def emptyStore : StoreState :=
  { databases := [], collections := [], documents := [],
    triggers := [], sprocs := [], udfs := [] }

def databaseExists (s : StoreState) (id : String) : Bool :=
  s.databases.any (fun d => d.id == id)

def collectionExists (s : StoreState) (dbId collId : String) : Bool :=
  s.collections.any (fun c => c.databaseId == dbId && c.id == collId)

def documentExists (s : StoreState) (dbId collId : String) (pidx : Nat) (docId : String) : Bool :=
  s.documents.any (fun d =>
    d.databaseId == dbId && d.collectionId == collId &&
      d.partitionIndex == pidx && d.docId == docId)

def scriptExists (l : List ScriptMeta) (dbId collId id : String) : Bool :=
  l.any (fun m => m.databaseId == dbId && m.collectionId == collId && m.id == id)

/-- Modelled from the spec: `CreateDatabase` — `AlreadyExists` leaves the
store unchanged, otherwise the stamped database is appended (iteration
order is insertion order). -/
def createDatabase (s : StoreState) (db : DatabaseMeta) : StoreState :=
  if databaseExists s db.id then s
  else { s with databases := s.databases ++ [db] }

/-- Modelled from the spec: `DeleteDatabase` — deleting a database deletes
all its collections and dependents, synchronously and totally. -/
def deleteDatabase (s : StoreState) (id : String) : StoreState :=
  { databases := s.databases.filter (fun d => d.id != id)
  , collections := s.collections.filter (fun c => c.databaseId != id)
  , documents := s.documents.filter (fun d => d.databaseId != id)
  , triggers := s.triggers.filter (fun m => m.databaseId != id)
  , sprocs := s.sprocs.filter (fun m => m.databaseId != id)
  , udfs := s.udfs.filter (fun m => m.databaseId != id) }

/-- Modelled from the spec: `CreateCollection`, scoped by its parent
database, unique `id` within it. -/
def createCollection (s : StoreState) (c : CollectionMeta) : StoreState :=
  if databaseExists s c.databaseId && !collectionExists s c.databaseId c.id then
    { s with collections := s.collections ++ [c] }
  else s

/-- Modelled from the spec: `DeleteCollection` — deletes the collection's
documents, triggers, sprocs and UDFs with it. -/
def deleteCollection (s : StoreState) (dbId collId : String) : StoreState :=
  { s with
    collections := s.collections.filter (fun c => !(c.databaseId == dbId && c.id == collId))
  , documents := s.documents.filter (fun d => !(d.databaseId == dbId && d.collectionId == collId))
  , triggers := s.triggers.filter (fun m => !(m.databaseId == dbId && m.collectionId == collId))
  , sprocs := s.sprocs.filter (fun m => !(m.databaseId == dbId && m.collectionId == collId))
  , udfs := s.udfs.filter (fun m => !(m.databaseId == dbId && m.collectionId == collId)) }

/-- Modelled from the spec: `ReplaceDocument` — the body of the document
keyed by `(database_id, collection_id, partition_index, document_id)` is
replaced in place; a miss leaves the store unchanged (`NotFound`). -/
def replaceDocument (s : StoreState) (dbId collId : String) (pidx : Nat) (docId : String)
    (newBody : Json) : StoreState :=
  { s with documents := s.documents.map (fun d =>
      if d.databaseId == dbId && d.collectionId == collId &&
          d.partitionIndex == pidx && d.docId == docId then
        { d with body := newBody }
      else d) }

/-- Modelled from the spec: `CreateDocument` — `(partition_key, id)` is
unique; a duplicate is `AlreadyExists` unless `isUpsert`, in which case it
replaces the stored body. -/
def createDocument (s : StoreState) (d : DocumentEntity) (isUpsert : Bool) : StoreState :=
  if !collectionExists s d.databaseId d.collectionId then s
  else if documentExists s d.databaseId d.collectionId d.partitionIndex d.docId then
    if isUpsert then
      replaceDocument s d.databaseId d.collectionId d.partitionIndex d.docId d.body
    else s
  else { s with documents := s.documents ++ [d] }

/-- Modelled from the spec: `DeleteDocument`. -/
def deleteDocument (s : StoreState) (dbId collId : String) (pidx : Nat) (docId : String) :
    StoreState :=
  { s with documents := s.documents.filter (fun d =>
      !(d.databaseId == dbId && d.collectionId == collId &&
        d.partitionIndex == pidx && d.docId == docId)) }

/-- Modelled from the spec: create a trigger (symmetric operations exist
for sprocs and UDFs), scoped by its parent collection. -/
def createTrigger (s : StoreState) (m : ScriptMeta) : StoreState :=
  if collectionExists s m.databaseId m.collectionId &&
      !scriptExists s.triggers m.databaseId m.collectionId m.id then
    { s with triggers := s.triggers ++ [m] }
  else s

/-- Modelled from the spec: delete a trigger. -/
def deleteTrigger (s : StoreState) (dbId collId id : String) : StoreState :=
  { s with triggers := s.triggers.filter (fun m =>
      !(m.databaseId == dbId && m.collectionId == collId && m.id == id)) }

/-- Modelled from the spec: create a stored procedure. -/
def createSproc (s : StoreState) (m : ScriptMeta) : StoreState :=
  if collectionExists s m.databaseId m.collectionId &&
      !scriptExists s.sprocs m.databaseId m.collectionId m.id then
    { s with sprocs := s.sprocs ++ [m] }
  else s

/-- Modelled from the spec: delete a stored procedure. -/
def deleteSproc (s : StoreState) (dbId collId id : String) : StoreState :=
  { s with sprocs := s.sprocs.filter (fun m =>
      !(m.databaseId == dbId && m.collectionId == collId && m.id == id)) }

/-- Modelled from the spec: create a user-defined function. -/
def createUdf (s : StoreState) (m : ScriptMeta) : StoreState :=
  if collectionExists s m.databaseId m.collectionId &&
      !scriptExists s.udfs m.databaseId m.collectionId m.id then
    { s with udfs := s.udfs ++ [m] }
  else s

/-- Modelled from the spec: delete a user-defined function. -/
def deleteUdf (s : StoreState) (dbId collId id : String) : StoreState :=
  { s with udfs := s.udfs.filter (fun m =>
      !(m.databaseId == dbId && m.collectionId == collId && m.id == id)) }

/-- The store states reachable from the empty store by the exposed store
operations (including a successful snapshot import). -/
inductive Reachable : StoreState → Prop where
  | empty : Reachable emptyStore
  | createDb (s : StoreState) (db : DatabaseMeta) :
      Reachable s → Reachable (createDatabase s db)
  | deleteDb (s : StoreState) (id : String) :
      Reachable s → Reachable (deleteDatabase s id)
  | createColl (s : StoreState) (c : CollectionMeta) :
      Reachable s → Reachable (createCollection s c)
  | deleteColl (s : StoreState) (dbId collId : String) :
      Reachable s → Reachable (deleteCollection s dbId collId)
  | createDoc (s : StoreState) (d : DocumentEntity) (isUpsert : Bool) :
      Reachable s → Reachable (createDocument s d isUpsert)
  | replaceDoc (s : StoreState) (dbId collId : String) (pidx : Nat) (docId : String) (b : Json) :
      Reachable s → Reachable (replaceDocument s dbId collId pidx docId b)
  | deleteDoc (s : StoreState) (dbId collId : String) (pidx : Nat) (docId : String) :
      Reachable s → Reachable (deleteDocument s dbId collId pidx docId)
  | createTr (s : StoreState) (m : ScriptMeta) :
      Reachable s → Reachable (createTrigger s m)
  | deleteTr (s : StoreState) (dbId collId id : String) :
      Reachable s → Reachable (deleteTrigger s dbId collId id)
  | createSp (s : StoreState) (m : ScriptMeta) :
      Reachable s → Reachable (createSproc s m)
  | deleteSp (s : StoreState) (dbId collId id : String) :
      Reachable s → Reachable (deleteSproc s dbId collId id)
  | createU (s : StoreState) (m : ScriptMeta) :
      Reachable s → Reachable (createUdf s m)
  | deleteU (s : StoreState) (dbId collId id : String) :
      Reachable s → Reachable (deleteUdf s dbId collId id)
  | restoreImport (s s2 : StoreState) (j : Json) :
      Reachable s → restore j = Except.ok s2 → Reachable s2

/-- A concrete reachable store: one database, one collection, one
document. -/
def sampleStore : StoreState :=
  createDocument
    (createCollection
      (createDatabase emptyStore ⟨"db1", "rid-db1", 1, "dbs/db1", "etag-1"⟩)
      ⟨"db1", "coll1", "rid-c1", 2, "dbs/db1/colls/coll1", "etag-2", ["/pk"]⟩)
    ⟨"db1", "coll1", 0, "doc1", Json.obj [("id", Json.str "doc1"), ("pk", Json.str "A")]⟩
    false

/- ## Theorems -/

/- ## Helper lemmas -/

theorem dropLeadingSlashes_cons_ne (c : Char) (cs : List Char) (h : c ≠ '/') :
    dropLeadingSlashes (c :: cs) = c :: cs := by
  simp [dropLeadingSlashes, h]

theorem strip_of_append (cs : List Char) (c : Char) (h : c ≠ '/') :
    stripTrailingSlash (String.mk (cs ++ [c, '/'])) = String.mk (cs ++ [c]) := by
  have hrev : (cs ++ [c, '/']).reverse = '/' :: c :: cs.reverse := by simp
  simp [stripTrailingSlash, hrev, dropLeadingSlashes, h]

theorem strip_no_trailing (cs : List Char) (c : Char) (h : c ≠ '/') :
    stripTrailingSlash (String.mk (cs ++ [c])) = String.mk (cs ++ [c]) := by
  have hrev : (cs ++ [c]).reverse = c :: cs.reverse := by simp
  simp [stripTrailingSlash, hrev, dropLeadingSlashes, h]

/- ## Claims about the route table and middleware -/

/-- C1: the non-explorer routes `CreateRouter` registers are, up to
path-variable renaming, exactly the method-and-template pairs the spec's
Routes section lists — each spec pair has a registered handler, and no
other non-explorer route exists. -/
theorem c1_route_table :
    List.Perm (createRouterRoutes.map normRoute) (specRoutes.map normSpecRoute) := by
  decide

/-- C6: the request-logger middleware is installed iff the configured log
level is `"debug"`, and in every other case the gin engine is put in
release (quiet) mode. -/
theorem c6_request_logging (cfg : ServerConfig) :
    ((MwName.requestLogger ∈ routerMiddlewares cfg) ↔ cfg.LogLevel = "debug") ∧
    (ginMode cfg = GinMode.release ↔ cfg.LogLevel ≠ "debug") := by
  constructor
  · by_cases h : cfg.LogLevel = "debug" <;> simp [routerMiddlewares, h]
  · by_cases h : cfg.LogLevel = "debug" <;> simp [ginMode, h]

/-- C2: for every registered route, the Authentication middleware is in
the chain that runs before the handler, and on a request whose token fails
authentication the chain aborts, so the handler (and any store call it
would make) never executes. -/
theorem c2_auth_short_circuit (cfg : ServerConfig) (r : Route) (req : Request)
    (_hr : r ∈ createRouterRoutes) :
    MwName.authentication ∈ routerMiddlewares cfg ∧
    (authPasses cfg req.authHeader = false → handlerRuns cfg r req = false) := by
  refine ⟨by simp [routerMiddlewares], ?_⟩
  intro hauth
  have hnone : runChain cfg (routerMiddlewares cfg) req = none := by
    by_cases hd : cfg.LogLevel = "debug" <;>
      simp [routerMiddlewares, hd, runChain, runMiddleware, hauth]
  simp [handlerRuns, hnone]

theorem c2_auth_short_circuit_witness :
    MwName.authentication ∈ routerMiddlewares ⟨"debug", false, "", "", 8081, "secret"⟩ ∧
    handlerRuns ⟨"debug", false, "", "", 8081, "secret"⟩
      ⟨Method.POST, [Seg.lit "dbs"], "CreateDatabase"⟩ ⟨"/dbs", "wrong"⟩ = false :=
  ⟨(c2_auth_short_circuit ⟨"debug", false, "", "", 8081, "secret"⟩
      ⟨Method.POST, [Seg.lit "dbs"], "CreateDatabase"⟩ ⟨"/dbs", "wrong"⟩ (by decide)).1,
   (c2_auth_short_circuit ⟨"debug", false, "", "", 8081, "secret"⟩
      ⟨Method.POST, [Seg.lit "dbs"], "CreateDatabase"⟩ ⟨"/dbs", "wrong"⟩ (by decide)).2
     (by decide)⟩

/-- C5: trailing-slash redirection is disabled on the engine, the
`StripTrailingSlashes` middleware is installed, and a request whose path
carries a trailing slash goes through the middleware chain exactly as the
same request with the canonical slash-free path. -/
theorem c5_trailing_slash (cfg : ServerConfig) (req : Request) (cs : List Char) (c : Char)
    (hc : c ≠ '/') (hp : req.path = String.mk (cs ++ [c, '/'])) :
    routerEngineSettings.redirectTrailingSlash = false ∧
    MwName.stripTrailingSlashes ∈ routerMiddlewares cfg ∧
    runChain cfg (routerMiddlewares cfg) req =
      runChain cfg (routerMiddlewares cfg) { req with path := String.mk (cs ++ [c]) } := by
  refine ⟨rfl, by simp [routerMiddlewares], ?_⟩
  by_cases hd : cfg.LogLevel = "debug" <;>
    simp [routerMiddlewares, hd, runChain, runMiddleware, hp,
          strip_of_append cs c hc, strip_no_trailing cs c hc]

theorem c5_trailing_slash_witness :
    routerEngineSettings.redirectTrailingSlash = false ∧
    MwName.stripTrailingSlashes ∈ routerMiddlewares ⟨"info", false, "", "", 8081, "k"⟩ ∧
    runChain ⟨"info", false, "", "", 8081, "k"⟩
        (routerMiddlewares ⟨"info", false, "", "", 8081, "k"⟩) ⟨"/dbs/", "k"⟩ =
      runChain ⟨"info", false, "", "", 8081, "k"⟩
        (routerMiddlewares ⟨"info", false, "", "", 8081, "k"⟩)
        ⟨String.mk (['/', 'd', 'b'] ++ ['s']), "k"⟩ :=
  c5_trailing_slash _ ⟨"/dbs/", "k"⟩ ['/', 'd', 'b'] 's' (by decide) (by decide)

/- ## Claims about `Start` -/

/-- C3: the listener mode is a total function of the configuration — plain
HTTP when TLS is disabled; HTTPS with the operator-provided files when
both paths are configured; otherwise HTTPS with the built-in self-signed
certificate. -/
theorem c3_listener_mode (cfg : ServerConfig) :
    (cfg.DisableTls = true → startListenMode cfg = ListenMode.plainHttp) ∧
    (cfg.DisableTls = false → cfg.TLS_CertificatePath ≠ "" → cfg.TLS_CertificateKey ≠ "" →
      startListenMode cfg =
        ListenMode.httpsProvided cfg.TLS_CertificatePath cfg.TLS_CertificateKey) ∧
    (cfg.DisableTls = false → (cfg.TLS_CertificatePath = "" ∨ cfg.TLS_CertificateKey = "") →
      startListenMode cfg = ListenMode.httpsSelfSigned) := by
  refine ⟨fun h => by simp [startListenMode, h], fun h h1 h2 => by simp [startListenMode, h, h1, h2], fun h h12 => ?_⟩
  rcases h12 with h1 | h1 <;> simp [startListenMode, h, h1]

theorem c3_listener_mode_witness :
    startListenMode ⟨"info", true, "", "", 8081, ""⟩ = ListenMode.plainHttp ∧
    startListenMode ⟨"info", false, "cert.pem", "key.pem", 8081, ""⟩ =
      ListenMode.httpsProvided "cert.pem" "key.pem" ∧
    startListenMode ⟨"info", false, "", "", 8081, ""⟩ = ListenMode.httpsSelfSigned :=
  ⟨(c3_listener_mode _).1 rfl,
   (c3_listener_mode _).2.1 rfl (by decide) (by decide),
   (c3_listener_mode _).2.2 rfl (Or.inl rfl)⟩

/-- C9: `DisableTls` takes precedence — whenever it is set, `Start` serves
plain HTTP, whatever the certificate and key paths hold. -/
theorem c9_disable_tls_precedence (cfg : ServerConfig) (h : cfg.DisableTls = true) :
    startListenMode cfg = ListenMode.plainHttp := by
  simp [startListenMode, h]

theorem c9_disable_tls_precedence_witness :
    startListenMode ⟨"info", true, "cert.pem", "key.pem", 8081, ""⟩ = ListenMode.plainHttp :=
  c9_disable_tls_precedence _ rfl

/-- C10: with TLS enabled, a configuration with exactly one of the two
certificate paths non-empty is served with the built-in self-signed
certificate; the operator-provided materials are used only when both
paths are non-empty. -/
theorem c10_single_path_self_signed (cfg : ServerConfig) :
    (cfg.DisableTls = false →
      (cfg.TLS_CertificatePath ≠ "" ∧ cfg.TLS_CertificateKey = "") ∨
        (cfg.TLS_CertificatePath = "" ∧ cfg.TLS_CertificateKey ≠ "") →
      startListenMode cfg = ListenMode.httpsSelfSigned) ∧
    (∀ a b, startListenMode cfg = ListenMode.httpsProvided a b →
      cfg.TLS_CertificatePath ≠ "" ∧ cfg.TLS_CertificateKey ≠ "") := by
  constructor
  · intro hd hcase
    rcases hcase with ⟨h1, h2⟩ | ⟨h1, h2⟩ <;> simp [startListenMode, hd, h1, h2]
  · intro a b hmode
    by_cases hd : cfg.DisableTls <;> simp [startListenMode, hd] at hmode
    by_cases hb : cfg.TLS_CertificatePath ≠ "" ∧ cfg.TLS_CertificateKey ≠ ""
    · exact hb
    · simp [hb] at hmode

theorem c10_single_path_self_signed_witness :
    startListenMode ⟨"info", false, "cert.pem", "", 8081, ""⟩ = ListenMode.httpsSelfSigned ∧
    ((⟨"info", false, "cert.pem", "key.pem", 8081, ""⟩ : ServerConfig).TLS_CertificatePath ≠ "" ∧
      (⟨"info", false, "cert.pem", "key.pem", 8081, ""⟩ : ServerConfig).TLS_CertificateKey ≠ "") :=
  ⟨(c10_single_path_self_signed _).1 rfl (Or.inl ⟨by decide, rfl⟩),
   (c10_single_path_self_signed _).2 "cert.pem" "key.pem" (by decide)⟩

/-- C8: `Start` returns a non-nil error only when the listener goroutine
reports a startup failure strictly inside the 50 ms window; a failure at
or after the window is not returned — `Start` has already returned `nil`
— and is reflected only by `isActive` being `false`. -/
theorem c8_startup_window (exit : Option ListenerExit) :
    (∀ e, startReturn exit = some e →
      ∃ t, exit = some ⟨t, some e⟩ ∧ t < startupWindow) ∧
    (∀ t err, exit = some ⟨t, some err⟩ → startupWindow ≤ t →
      startReturn exit = none ∧ isActiveAfter exit = false) := by
  constructor
  · intro e h
    cases exit with
    | none => simp [startReturn] at h
    | some ex =>
      cases ex with
      | mk t f =>
        by_cases ht : t < startupWindow
        · simp [startReturn, ht] at h
          exact ⟨t, by simp [h], ht⟩
        · simp [startReturn, ht] at h
  · intro t err hex ht
    subst hex
    exact ⟨by simp [startReturn, Nat.not_lt.mpr ht], rfl⟩

theorem c8_startup_window_witness :
    (∃ t, (some (ListenerExit.mk 10 (some "bind failed")) : Option ListenerExit) =
        some ⟨t, some "bind failed"⟩ ∧ t < startupWindow) ∧
    (startReturn (some ⟨100, some "late failure"⟩) = none ∧
      isActiveAfter (some (ListenerExit.mk 100 (some "late failure"))) = false) :=
  ⟨(c8_startup_window _).1 "bind failed" rfl,
   (c8_startup_window _).2 100 "late failure" rfl (by decide)⟩

/-- C4 (as stated, refuted): the shutdown goroutine passes
`context.TODO()` — a context with no deadline — to `server.Shutdown`, so
there is no bounded grace window and remaining connections are never
forcibly closed, not even after an arbitrarily long drain. -/
theorem c4_shutdown_counterexample :
    shutdownCallContext.deadline = none ∧
    ((∃ d, shutdownCallContext.deadline = some d) → False) ∧
    (httpServerShutdown shutdownCallContext 1000000).forcedClose = false := by
  refine ⟨rfl, ?_, rfl⟩
  rintro ⟨d, hd⟩
  simp [shutdownCallContext] at hd

/-- C4 (amended): on receipt of the shutdown signal the goroutine calls
`server.Shutdown` with a deadline-free context — stopping new connections
and draining in-flight handlers without any bound, never forcibly closing
— and then sends the completion notification on the shutdown channel. -/
theorem c4_shutdown_amended :
    shutdownGoroutineSteps =
      [ShutdownStep.awaitStopSignal,
       ShutdownStep.callServerShutdown { deadline := none },
       ShutdownStep.notifyOnServerShutdown] ∧
    (∀ drainTime,
      (httpServerShutdown shutdownCallContext drainTime).stoppedAccepting = true ∧
      (httpServerShutdown shutdownCallContext drainTime).drainedAll = true ∧
      (httpServerShutdown shutdownCallContext drainTime).forcedClose = false) :=
  ⟨rfl, fun _ => ⟨rfl, rfl, rfl⟩⟩

theorem databaseOfJson_roundtrip (d : DatabaseMeta) :
    databaseOfJson (databaseToJson d) = Except.ok d := rfl

theorem decodeList_map (dec : Json → Except String α) (enc : α → Json)
    (h : ∀ x, dec (enc x) = Except.ok x) (xs : List α) :
    decodeList dec (xs.map enc) = Except.ok xs := by
  induction xs with
  | nil => rfl
  | cons x rest ih => simp [decodeList, h x, ih]

theorem except_bind_ok {α β : Type} (a : α) (f : α → Except String β) :
    Bind.bind (Except.ok a) f = f a := rfl

theorem collectionOfJson_roundtrip (c : CollectionMeta) :
    collectionOfJson (collectionToJson c) = Except.ok c := by
  have h := decodeList_map strOfJson Json.str (fun _ => rfl) c.partitionKeyPaths
  simp [collectionOfJson, collectionToJson, lookupField, asString, asInt, h, except_bind_ok]

theorem documentOfJson_roundtrip (d : DocumentEntity) :
    documentOfJson (documentToJson d) = Except.ok d := rfl

theorem scriptOfJson_roundtrip (m : ScriptMeta) :
    scriptOfJson (scriptToJson m) = Except.ok m := rfl

theorem restore_snapshot (s : StoreState) : restore (snapshot s) = Except.ok s := by
  have h1 := decodeList_map databaseOfJson databaseToJson databaseOfJson_roundtrip s.databases
  have h2 := decodeList_map collectionOfJson collectionToJson collectionOfJson_roundtrip s.collections
  have h3 := decodeList_map documentOfJson documentToJson documentOfJson_roundtrip s.documents
  have h4 := decodeList_map scriptOfJson scriptToJson scriptOfJson_roundtrip s.triggers
  have h5 := decodeList_map scriptOfJson scriptToJson scriptOfJson_roundtrip s.sprocs
  have h6 := decodeList_map scriptOfJson scriptToJson scriptOfJson_roundtrip s.udfs
  simp [restore, snapshot, listField, lookupField, h1, h2, h3, h4, h5, h6, except_bind_ok]


/-- C7: for every reachable store state, restoring the exported snapshot
yields a store equal to the original as a value. -/
theorem c7_snapshot_roundtrip (s : StoreState) (_h : Reachable s) :
    restore (snapshot s) = Except.ok s :=
  restore_snapshot s

theorem c7_snapshot_roundtrip_witness :
    Reachable sampleStore ∧ restore (snapshot sampleStore) = Except.ok sampleStore :=
  ⟨Reachable.createDoc _ _ _ (Reachable.createColl _ _ (Reachable.createDb _ _ Reachable.empty)),
   c7_snapshot_roundtrip sampleStore
     (Reachable.createDoc _ _ _ (Reachable.createColl _ _ (Reachable.createDb _ _ Reachable.empty)))⟩
